import Mathlib

/-!
Shallow embedding of the socialmagic content pipeline
(src/models.py, src/main.py, src/tasks/generation.py, src/tasks/publishing.py).

Timestamps are modelled as natural numbers counting minutes since the epoch,
so one day is 1440 and the fixed 10:00 slot is minute 600 of a day.
Python `datetime.utcnow()` is passed in explicitly as a `now` argument.
The database session is modelled by explicit state passing: an endpoint or
task takes the row(s) it reads and returns the mutated row(s) together with
the list of jobs it enqueued; an early-return error leaves rows unchanged.
-/

/-- Post status enum (src/models.py lines 15-21). -/
inductive PostStatus where
  | pending
  | approved
  | rejected
  | scheduled
  | posted
  | failed
deriving DecidableEq

/-- Media type enum (src/models.py lines 11-13). -/
inductive MediaType where
  | image
  | video
deriving DecidableEq

/-- A JSON value stored in the `generation_metadata` column.  The creation
path stores sub-dicts coming from the AI service (modelled as string-to-string
dicts) and the numeric `weekly_generation_id`; the regeneration path
(src/tasks/generation.py lines 358-362) stores a dict with the rejection note,
the regeneration count and the regeneration time, modelled by the dedicated
`regenInfo` constructor. -/
inductive MetaVal where
  | num (n : Nat)
  | dict (kvs : List (String × String))
  | regenInfo (note : String) (count : Nat) (time : Nat)
deriving DecidableEq

/-- Python `str.strip()`: drop whitespace from both ends.  Modelled directly
on the character list so that it evaluates in the kernel. -/
def pyStrip (s : String) : String :=
  String.mk
    (((s.data.dropWhile Char.isWhitespace).reverse.dropWhile Char.isWhitespace).reverse)

/-- Python dict assignment `d[k] = v`: replace the value in place if the key
exists, otherwise append the new key at the end. -/
def dictSet (d : List (String × MetaVal)) (k : String) (v : MetaVal) :
    List (String × MetaVal) :=
  if d.any (fun kv => kv.1 == k) then
    d.map (fun kv => if kv.1 == k then (k, v) else kv)
  else d ++ [(k, v)]

/-- The `posts` table row (src/models.py lines 130-177).  Nullable columns are
`Option`; counter columns default to 0 and the engagement rate is a rational
(modelling the float column exactly on the values the code computes). -/
structure Post where
  id : Nat
  userId : Nat
  campaignId : Option Nat
  mediaType : MediaType
  mediaUrl : Option String
  thumbnailUrl : Option String
  caption : String
  hashtags : List String
  promptUsed : String
  generationMetadata : List (String × MetaVal)
  status : PostStatus
  rejectionNote : Option String
  regenerationCount : Nat
  scheduledFor : Option Nat
  postedAt : Option Nat
  instagramPostId : Option String
  facebookPostId : Option String
  likes : Nat
  comments : Nat
  shares : Nat
  reach : Nat
  impressions : Nat
  engagementRate : ℚ
  lastMetricsUpdate : Option Nat
  createdAt : Nat
  updatedAt : Nat
deriving DecidableEq

/-- Result of one HTTP endpoint invocation on a single post: the (possibly
mutated) row, the jobs enqueued by the endpoint, and the error message of an
early-return JSON error response, if any. -/
structure EndpointResult (job : Type) where
  post : Post
  enqueued : List job
  error : Option String
deriving DecidableEq

/-- A concrete freshly generated PENDING row, used as the base input of the
concrete witness evaluations below. -/
def samplePost : Post :=
  { id := 3, userId := 1, campaignId := some 2, mediaType := MediaType.image,
    mediaUrl := some "m", thumbnailUrl := none, caption := "c", hashtags := ["h"],
    promptUsed := "p", generationMetadata := [("weekly_generation_id", MetaVal.num 9)],
    status := PostStatus.pending,
    rejectionNote := none, regenerationCount := 0, scheduledFor := none,
    postedAt := none, instagramPostId := none, facebookPostId := none,
    likes := 0, comments := 0, shares := 0, reach := 0, impressions := 0,
    engagementRate := 0, lastMetricsUpdate := none, createdAt := 5, updatedAt := 5 }

/-- `approve_post` (src/main.py lines 384-407) acting on the looked-up post.
`subActive` is `current_user.subscription_active`.  On success the status is
set to APPROVED and a `schedule_approved_posts` job for the user is enqueued;
the job payload is the user id. -/
def approve_post (subActive : Bool) (post : Post) : EndpointResult Nat :=
  if !subActive then
    { post := post, enqueued := [], error := some "Subscription required" }
  else if post.status ≠ PostStatus.pending then
    { post := post, enqueued := [], error := some "Post is not pending approval" }
  else
    { post := { post with status := PostStatus.approved },
      enqueued := [post.userId],
      error := none }

/-- `reject_post` (src/main.py lines 408-439) acting on the looked-up post.
`note` is `data.get('note', ...)` from the request body (`none` when the key
is absent); the code strips whitespace and treats an empty result as a
validation error.  On success the status becomes REJECTED, the note is stored
and a `regenerate_post` job (payload: post id and note) is enqueued. -/
def reject_post (subActive : Bool) (post : Post) (note : Option String) :
    EndpointResult (Nat × String) :=
  if !subActive then
    { post := post, enqueued := [], error := some "Subscription required" }
  else if post.status ≠ PostStatus.pending then
    { post := post, enqueued := [], error := some "Post is not pending approval" }
  else
    let rejectionNote := pyStrip (note.getD "")
    if rejectionNote = "" then
      { post := post, enqueued := [], error := some "Rejection note is required" }
    else
      { post := { post with status := PostStatus.rejected,
                            rejectionNote := some rejectionNote },
        enqueued := [(post.id, rejectionNote)],
        error := none }

/-- C4: for a PENDING post, a rejection request whose note is absent or
whitespace-only is refused with a validation error: the returned row is the
input row unchanged (status still PENDING, rejection note untouched) and no
regeneration job is enqueued. -/
theorem reject_empty_note_no_state_change (post : Post) (note : Option String)
    (hp : post.status = PostStatus.pending)
    (hn : note = none ∨ pyStrip (note.getD "") = "") :
    reject_post true post note =
      { post := post, enqueued := [], error := some "Rejection note is required" } := by
  have hempty : pyStrip (note.getD "") = "" := by
    rcases hn with h | h
    · subst h; rfl
    · exact h
  simp [reject_post, hp, hempty]

theorem reject_empty_note_no_state_change_witness :
    reject_post true samplePost (some "   ") =
      { post := samplePost, enqueued := [],
        error := some "Rejection note is required" } :=
  reject_empty_note_no_state_change samplePost (some "   ") rfl (Or.inr rfl)

/-- C10: with an active subscription, approving a post that is not PENDING
returns an error and changes nothing (no field is touched and no scheduling
job is enqueued), while approving a PENDING post only sets the status to
APPROVED — in particular the scheduled-publish timestamp is never set by the
approval endpoint itself, which merely enqueues the scheduler job. -/
theorem approve_post_spec (post : Post) :
    (post.status ≠ PostStatus.pending →
      approve_post true post =
        { post := post, enqueued := [], error := some "Post is not pending approval" }) ∧
    (post.status = PostStatus.pending →
      approve_post true post =
        { post := { post with status := PostStatus.approved },
          enqueued := [post.userId], error := none } ∧
      (approve_post true post).post.scheduledFor = post.scheduledFor) := by
  constructor
  · intro h
    simp [approve_post, h]
  · intro h
    simp [approve_post, h]

theorem approve_post_spec_witness :
    approve_post true
        { samplePost with status := PostStatus.posted, scheduledFor := some 9,
                          postedAt := some 9 } =
      { post := { samplePost with status := PostStatus.posted, scheduledFor := some 9,
                                  postedAt := some 9 },
        enqueued := [], error := some "Post is not pending approval" } :=
  (approve_post_spec _).1 (by decide)

/-- The row filter of the periodic sweep `publish_scheduled_posts`
(src/tasks/publishing.py lines 14-22): status SCHEDULED and
`cutoff_time <= scheduled_for <= now` with `cutoff_time = now - 15` minutes.
A SQL comparison against a NULL `scheduled_for` matches no row.  `now - 15`
uses truncated subtraction; real wall-clock times are far above 15 minutes,
and the theorems below assume `20 ≤ now` accordingly. -/
def sweepWindow (now : Nat) (p : Post) : Bool :=
  p.status == PostStatus.scheduled &&
    (match p.scheduledFor with
     | some t => decide (now - 15 ≤ t) && decide (t ≤ now)
     | none => false)

/-- The posts selected by one run of the sweep. -/
def sweptPosts (table : List Post) (now : Nat) : List Post :=
  table.filter (sweepWindow now)

/-- `publish_scheduled_posts` (src/tasks/publishing.py lines 9-33): one
`publish_single_post` job is enqueued per selected row; the job payload is
the post id. -/
def publish_scheduled_posts (table : List Post) (now : Nat) : List Nat :=
  (sweptPosts table now).map Post.id

/-- C3 counterexample: the code window is closed on the left.  At
`now = 10000`, a SCHEDULED post whose publish timestamp is exactly
`now - 15 = 9985` is enqueued by the sweep, although it does not lie in the
half-open window `(now - 15, now]` claimed by the spec. -/
theorem publish_sweep_boundary_counterexample :
    publish_scheduled_posts
        [{ samplePost with status := PostStatus.scheduled, scheduledFor := some 9985 }]
        10000 =
      [samplePost.id] ∧
    ¬ (10000 - 15 < 9985) := by
  constructor
  · rfl
  · decide

/-- C3 (amended): the sweep enqueues one publish job per selected post, and
the selected posts are exactly the rows with status SCHEDULED whose publish
timestamp lies in the closed window `[now - 15, now]`; in particular a post
scheduled for `now - 20` is never selected. -/
theorem publish_sweep_window_closed (table : List Post) (now : Nat) (h : 20 ≤ now) :
    (∀ p, p ∈ sweptPosts table now ↔
      p ∈ table ∧ p.status = PostStatus.scheduled ∧
        ∃ t, p.scheduledFor = some t ∧ now - 15 ≤ t ∧ t ≤ now) ∧
    publish_scheduled_posts table now = (sweptPosts table now).map Post.id ∧
    (∀ p, p ∈ table → p.scheduledFor = some (now - 20) → p ∉ sweptPosts table now) := by
  have hmem : ∀ p, p ∈ sweptPosts table now ↔
      p ∈ table ∧ p.status = PostStatus.scheduled ∧
        ∃ t, p.scheduledFor = some t ∧ now - 15 ≤ t ∧ t ≤ now := by
    intro p
    simp only [sweptPosts, List.mem_filter, sweepWindow, Bool.and_eq_true, beq_iff_eq]
    constructor
    · rintro ⟨hp, hs, hw⟩
      refine ⟨hp, hs, ?_⟩
      cases ht : p.scheduledFor with
      | none => rw [ht] at hw; simp at hw
      | some t =>
        rw [ht] at hw
        simp only [Bool.and_eq_true, decide_eq_true_eq] at hw
        exact ⟨t, rfl, hw.1, hw.2⟩
    · rintro ⟨hp, hs, t, ht, h1, h2⟩
      refine ⟨hp, hs, ?_⟩
      rw [ht]
      simp only [Bool.and_eq_true, decide_eq_true_eq]
      exact ⟨h1, h2⟩
  refine ⟨hmem, rfl, ?_⟩
  intro p hp ht hmemp
  rcases ((hmem p).1 hmemp).2.2 with ⟨t, ht2, h1, h2⟩
  rw [ht] at ht2
  have : t = now - 20 := by injection ht2.symm
  omega

theorem publish_sweep_window_closed_witness :
    ({ samplePost with status := PostStatus.scheduled, scheduledFor := some 9985 }
        ∈ sweptPosts
            [{ samplePost with status := PostStatus.scheduled, scheduledFor := some 9985 }]
            10000) ∧
    ({ samplePost with status := PostStatus.scheduled, scheduledFor := some 9980 }
        ∉ sweptPosts
            [{ samplePost with status := PostStatus.scheduled, scheduledFor := some 9980 }]
            10000) :=
  ⟨((publish_sweep_window_closed _ 10000 (by decide)).1 _).2
      ⟨List.mem_singleton.2 rfl, rfl, 9985, rfl, by decide, by decide⟩,
    (publish_sweep_window_closed _ 10000 (by decide)).2.2 _
      (List.mem_singleton.2 rfl) rfl⟩

/-- A connected social account row (src/models.py `SocialAccount`), as used by
the publish job: only the access token and the page/account id matter. -/
structure SocialAccount where
  accessToken : String
  accountId : String
deriving DecidableEq

/-- Outcome of one Publish Provider call (Instagram publish or Facebook page
post): success carries the platform post id. -/
inductive PubResult where
  | ok (mediaId : String)
  | err (msg : String)
deriving DecidableEq

/-- `publish_single_post` (src/tasks/publishing.py lines 35-120) on the
looked-up post.  `instagram` / `facebook` are the user's connected accounts
(`none` when not connected), `igRes` / `fbRes` the provider outcomes, and the
result is the mutated row, the list of delayed `update_post_analytics` jobs
enqueued (payload: post id), and the task's return value. -/
def publish_single_post (post : Post) (instagram facebook : Option SocialAccount)
    (igRes fbRes : PubResult) (now : Nat) : Post × List Nat × Bool :=
  if post.status ≠ PostStatus.scheduled then (post, [], false)
  else
    match instagram with
    | none =>
      -- lines 62-68: no Instagram account connected, simulate the post
      ({ post with status := PostStatus.posted, postedAt := some now }, [], true)
    | some _ =>
      match igRes with
      | PubResult.ok mediaId =>
        let p1 := { post with instagramPostId := some mediaId }
        let p2 :=
          match facebook, fbRes with
          | some _, PubResult.ok pagePostId => { p1 with facebookPostId := some pagePostId }
          | _, _ => p1
        ({ p2 with status := PostStatus.posted, postedAt := some now }, [post.id], true)
      | PubResult.err _ => ({ post with status := PostStatus.failed }, [], false)

/-- C7 counterexample: a simulated publish (SCHEDULED post, no connected
Instagram account) marks the row POSTED with a posted timestamp but leaves
`generation_metadata` exactly as it was — nothing distinguishing the
simulation is recorded there, contrary to the claim. -/
theorem simulated_publish_metadata_unchanged :
    (publish_single_post
        { samplePost with status := PostStatus.scheduled, scheduledFor := some 100 }
        none none (PubResult.err "e") (PubResult.err "e") 200).1 =
      { samplePost with status := PostStatus.posted, scheduledFor := some 100,
                        postedAt := some 200 } ∧
    (publish_single_post
        { samplePost with status := PostStatus.scheduled, scheduledFor := some 100 }
        none none (PubResult.err "e") (PubResult.err "e") 200).1.generationMetadata =
      samplePost.generationMetadata := by
  constructor <;> rfl

/-- C7 (amended): for a SCHEDULED post whose user has no connected Instagram
account, the publish job simulates success: it sets status POSTED and the
posted timestamp, enqueues no analytics job, returns success, and changes no
other field — in particular the generation metadata is left unchanged, so the
simulation is not recorded there. -/
theorem simulated_publish_effects (post : Post) (facebook : Option SocialAccount)
    (igRes fbRes : PubResult) (now : Nat)
    (h : post.status = PostStatus.scheduled) :
    publish_single_post post none facebook igRes fbRes now =
      ({ post with status := PostStatus.posted, postedAt := some now }, [], true) := by
  simp [publish_single_post, h]

theorem simulated_publish_effects_witness :
    publish_single_post
        { samplePost with status := PostStatus.scheduled, scheduledFor := some 100 }
        none none (PubResult.ok "x") (PubResult.ok "y") 200 =
      ({ samplePost with status := PostStatus.posted, scheduledFor := some 100,
                         postedAt := some 200 }, [], true) :=
  simulated_publish_effects _ none (PubResult.ok "x") (PubResult.ok "y") 200 rfl

/-- One entry of `insights_result['insights']['data']` as consumed by
`update_post_analytics` (src/tasks/publishing.py lines 227-243): a metric
name together with `insight['values'][0]['value']`. -/
structure Insight where
  name : String
  value : Nat
deriving DecidableEq

/-- The if/elif chain of src/tasks/publishing.py lines 230-243 applied to one
insight: the matching counter column is overwritten with the provider value. -/
def applyInsight (p : Post) (i : Insight) : Post :=
  if i.name = "impressions" then { p with impressions := i.value }
  else if i.name = "reach" then { p with reach := i.value }
  else if i.name = "likes" then { p with likes := i.value }
  else if i.name = "comments" then { p with comments := i.value }
  else if i.name = "shares" then { p with shares := i.value }
  else p

/-- The five metric counter columns of a post, in the order
(likes, comments, shares, reach, impressions). -/
def metricCounters (p : Post) : Nat × Nat × Nat × Nat × Nat :=
  (p.likes, p.comments, p.shares, p.reach, p.impressions)

/-- `update_post_analytics` (src/tasks/publishing.py lines 193-256) with
`delay_hours = 0` (the delayed call only re-enqueues itself).  `igConnected`
tells whether a connected Instagram account row exists; `insights` is `none`
when the provider call failed (`insights_result['success']` false), otherwise
the parsed data list.  Early returns leave the row unchanged. -/
def update_post_analytics (post : Post) (igConnected : Bool)
    (insights : Option (List Insight)) (now : Nat) : Post :=
  if post.status ≠ PostStatus.posted then post
  else if !igConnected || post.instagramPostId.getD "" == "" then post
  else
    match insights with
    | none => post
    | some data =>
      let p1 := data.foldl applyInsight post
      let p2 :=
        if 0 < p1.reach then
          { p1 with engagementRate :=
              (((p1.likes : ℚ) + (p1.comments : ℚ) + (p1.shares : ℚ)) / (p1.reach : ℚ)) * 100 }
        else p1
      { p2 with lastMetricsUpdate := some now }

/-- The value a metric named `n` ends with after the fold: the last matching
insight value, defaulting to `d`. -/
def lastVal (l : List Insight) (n : String) (d : Nat) : Nat :=
  l.foldl (fun a i => if i.name = n then i.value else a) d

theorem lastVal_cases (l : List Insight) (n : String) :
    (∀ d e, lastVal l n d = lastVal l n e) ∨ (∀ d, lastVal l n d = d) := by
  induction l with
  | nil => exact Or.inr (fun d => rfl)
  | cons i l ih =>
    by_cases hc : i.name = n
    · exact Or.inl (fun d e => by simp [lastVal, List.foldl_cons, hc])
    · rcases ih with h | h
      · exact Or.inl (fun d e => by
          simp only [lastVal, List.foldl_cons, if_neg hc]
          exact h d e)
      · exact Or.inr (fun d => by
          simp only [lastVal, List.foldl_cons, if_neg hc]
          exact h d)

theorem lastVal_idem (l : List Insight) (n : String) (d : Nat) :
    lastVal l n (lastVal l n d) = lastVal l n d := by
  rcases lastVal_cases l n with h | h
  · exact h _ _
  · rw [h, h]

theorem applyInsight_likes (p : Post) (i : Insight) :
    (applyInsight p i).likes = if i.name = "likes" then i.value else p.likes := by
  unfold applyInsight
  split_ifs <;> simp_all

theorem applyInsight_comments (p : Post) (i : Insight) :
    (applyInsight p i).comments = if i.name = "comments" then i.value else p.comments := by
  unfold applyInsight
  split_ifs <;> simp_all

theorem applyInsight_shares (p : Post) (i : Insight) :
    (applyInsight p i).shares = if i.name = "shares" then i.value else p.shares := by
  unfold applyInsight
  split_ifs <;> simp_all

theorem applyInsight_reach (p : Post) (i : Insight) :
    (applyInsight p i).reach = if i.name = "reach" then i.value else p.reach := by
  unfold applyInsight
  split_ifs <;> simp_all

theorem applyInsight_impressions (p : Post) (i : Insight) :
    (applyInsight p i).impressions =
      if i.name = "impressions" then i.value else p.impressions := by
  unfold applyInsight
  split_ifs <;> simp_all

theorem foldl_applyInsight_likes (l : List Insight) :
    ∀ p : Post, (l.foldl applyInsight p).likes = lastVal l "likes" p.likes := by
  induction l with
  | nil => intro p; rfl
  | cons i l ih =>
    intro p
    rw [List.foldl_cons, ih, applyInsight_likes]
    rfl

theorem foldl_applyInsight_comments (l : List Insight) :
    ∀ p : Post, (l.foldl applyInsight p).comments = lastVal l "comments" p.comments := by
  induction l with
  | nil => intro p; rfl
  | cons i l ih =>
    intro p
    rw [List.foldl_cons, ih, applyInsight_comments]
    rfl

theorem foldl_applyInsight_shares (l : List Insight) :
    ∀ p : Post, (l.foldl applyInsight p).shares = lastVal l "shares" p.shares := by
  induction l with
  | nil => intro p; rfl
  | cons i l ih =>
    intro p
    rw [List.foldl_cons, ih, applyInsight_shares]
    rfl

theorem foldl_applyInsight_reach (l : List Insight) :
    ∀ p : Post, (l.foldl applyInsight p).reach = lastVal l "reach" p.reach := by
  induction l with
  | nil => intro p; rfl
  | cons i l ih =>
    intro p
    rw [List.foldl_cons, ih, applyInsight_reach]
    rfl

theorem foldl_applyInsight_impressions (l : List Insight) :
    ∀ p : Post, (l.foldl applyInsight p).impressions =
      lastVal l "impressions" p.impressions := by
  induction l with
  | nil => intro p; rfl
  | cons i l ih =>
    intro p
    rw [List.foldl_cons, ih, applyInsight_impressions]
    rfl

/-- The analytics fold touches only the five counter columns: every other
field of the row survives `applyInsight` unchanged. -/
theorem applyInsight_frame (p : Post) (i : Insight) :
    (applyInsight p i).status = p.status ∧
    (applyInsight p i).scheduledFor = p.scheduledFor ∧
    (applyInsight p i).rejectionNote = p.rejectionNote ∧
    (applyInsight p i).regenerationCount = p.regenerationCount ∧
    (applyInsight p i).instagramPostId = p.instagramPostId ∧
    (applyInsight p i).engagementRate = p.engagementRate := by
  unfold applyInsight
  split_ifs <;> exact ⟨rfl, rfl, rfl, rfl, rfl, rfl⟩

theorem foldl_applyInsight_frame (l : List Insight) :
    ∀ p : Post, (l.foldl applyInsight p).status = p.status ∧
      (l.foldl applyInsight p).scheduledFor = p.scheduledFor ∧
      (l.foldl applyInsight p).rejectionNote = p.rejectionNote ∧
      (l.foldl applyInsight p).regenerationCount = p.regenerationCount ∧
      (l.foldl applyInsight p).instagramPostId = p.instagramPostId ∧
      (l.foldl applyInsight p).engagementRate = p.engagementRate := by
  induction l with
  | nil => intro p; exact ⟨rfl, rfl, rfl, rfl, rfl, rfl⟩
  | cons i l ih =>
    intro p
    have h1 := applyInsight_frame p i
    have h2 := ih (applyInsight p i)
    rw [List.foldl_cons]
    exact ⟨h2.1.trans h1.1, h2.2.1.trans h1.2.1, h2.2.2.1.trans h1.2.2.1,
      h2.2.2.2.1.trans h1.2.2.2.1, h2.2.2.2.2.1.trans h1.2.2.2.2.1,
      h2.2.2.2.2.2.trans h1.2.2.2.2.2⟩

/-- Reduction of one successful metrics refresh on a POSTED row with a
connected account and a platform post id. -/
theorem update_post_analytics_reduce (data : List Insight) (p : Post)
    (hp : p.status = PostStatus.posted) (hi : p.instagramPostId.getD "" ≠ "")
    (n : Nat) :
    update_post_analytics p true (some data) n =
      { (if 0 < (data.foldl applyInsight p).reach then
            { data.foldl applyInsight p with engagementRate :=
                ((((data.foldl applyInsight p).likes : ℚ) +
                    ((data.foldl applyInsight p).comments : ℚ) +
                    ((data.foldl applyInsight p).shares : ℚ)) /
                  ((data.foldl applyInsight p).reach : ℚ)) * 100 }
          else data.foldl applyInsight p) with lastMetricsUpdate := some n } := by
  simp [update_post_analytics, hp, hi]

/-- C9: a metrics refresh on a POSTED row with a connected Instagram account
and provider data `data` (i) leaves the engagement rate at its prior value
when the refreshed reach is 0, (ii) sets it to
(likes+comments+shares)/reach × 100 over the refreshed counters when reach is
positive, and (iii) is idempotent on the counters: re-running the refresh with
the same provider data leaves likes, comments, shares, reach and impressions
unchanged (counters are overwritten, not incremented). -/
theorem update_post_analytics_spec (post : Post) (data : List Insight)
    (now now2 : Nat) (hst : post.status = PostStatus.posted)
    (hig : post.instagramPostId.getD "" ≠ "") :
    ((update_post_analytics post true (some data) now).reach = 0 →
      (update_post_analytics post true (some data) now).engagementRate =
        post.engagementRate) ∧
    (0 < (update_post_analytics post true (some data) now).reach →
      (update_post_analytics post true (some data) now).engagementRate =
        ((((update_post_analytics post true (some data) now).likes : ℚ) +
            ((update_post_analytics post true (some data) now).comments : ℚ) +
            ((update_post_analytics post true (some data) now).shares : ℚ)) /
          ((update_post_analytics post true (some data) now).reach : ℚ)) * 100) ∧
    metricCounters
        (update_post_analytics (update_post_analytics post true (some data) now)
          true (some data) now2) =
      metricCounters (update_post_analytics post true (some data) now) := by
  have hq := update_post_analytics_reduce data post hst hig now
  have hframe := foldl_applyInsight_frame data post
  have hqreach : (update_post_analytics post true (some data) now).reach =
      (data.foldl applyInsight post).reach := by
    rw [hq]; split <;> rfl
  have hqlikes : (update_post_analytics post true (some data) now).likes =
      (data.foldl applyInsight post).likes := by
    rw [hq]; split <;> rfl
  have hqcomments : (update_post_analytics post true (some data) now).comments =
      (data.foldl applyInsight post).comments := by
    rw [hq]; split <;> rfl
  have hqshares : (update_post_analytics post true (some data) now).shares =
      (data.foldl applyInsight post).shares := by
    rw [hq]; split <;> rfl
  have hqimpr : (update_post_analytics post true (some data) now).impressions =
      (data.foldl applyInsight post).impressions := by
    rw [hq]; split <;> rfl
  refine ⟨?_, ?_, ?_⟩
  · intro h0
    rw [hqreach] at h0
    rw [hq]
    rw [if_neg (by omega)]
    exact hframe.2.2.2.2.2
  · intro hpos
    rw [hqreach] at hpos
    rw [hq, if_pos hpos] at hqlikes hqcomments hqshares hqreach ⊢
  · have hqst : (update_post_analytics post true (some data) now).status =
        PostStatus.posted := by
      rw [hq]
      split
      · exact hframe.1.trans hst
      · exact hframe.1.trans hst
    have hqig : (update_post_analytics post true (some data) now).instagramPostId =
        post.instagramPostId := by
      rw [hq]
      split
      · exact hframe.2.2.2.2.1
      · exact hframe.2.2.2.2.1
    have h2 := update_post_analytics_reduce data
      (update_post_analytics post true (some data) now) hqst
      (by rw [hqig]; exact hig) now2
    rw [h2]
    have c1 : (update_post_analytics post true (some data) now).likes =
        lastVal data "likes" post.likes :=
      hqlikes.trans (foldl_applyInsight_likes data post)
    have c2 : (update_post_analytics post true (some data) now).comments =
        lastVal data "comments" post.comments :=
      hqcomments.trans (foldl_applyInsight_comments data post)
    have c3 : (update_post_analytics post true (some data) now).shares =
        lastVal data "shares" post.shares :=
      hqshares.trans (foldl_applyInsight_shares data post)
    have c4 : (update_post_analytics post true (some data) now).reach =
        lastVal data "reach" post.reach :=
      hqreach.trans (foldl_applyInsight_reach data post)
    have c5 : (update_post_analytics post true (some data) now).impressions =
        lastVal data "impressions" post.impressions :=
      hqimpr.trans (foldl_applyInsight_impressions data post)
    have l1 := foldl_applyInsight_likes data
      (update_post_analytics post true (some data) now)
    have l2 := foldl_applyInsight_comments data
      (update_post_analytics post true (some data) now)
    have l3 := foldl_applyInsight_shares data
      (update_post_analytics post true (some data) now)
    have l4 := foldl_applyInsight_reach data
      (update_post_analytics post true (some data) now)
    have l5 := foldl_applyInsight_impressions data
      (update_post_analytics post true (some data) now)
    rw [c1, lastVal_idem] at l1
    rw [c2, lastVal_idem] at l2
    rw [c3, lastVal_idem] at l3
    rw [c4, lastVal_idem] at l4
    rw [c5, lastVal_idem] at l5
    rw [← c1] at l1
    rw [← c2] at l2
    rw [← c3] at l3
    rw [← c4] at l4
    rw [← c5] at l5
    unfold metricCounters
    split
    · simp only [l1, l2, l3, l4, l5]
    · simp only [l1, l2, l3, l4, l5]

theorem update_post_analytics_spec_witness :
    (update_post_analytics
        { samplePost with status := PostStatus.posted, postedAt := some 9,
                          instagramPostId := some "ig", engagementRate := 7 }
        true (some [⟨"reach", 0⟩, ⟨"likes", 5⟩, ⟨"comments", 2⟩]) 11).engagementRate =
      (7 : ℚ) :=
  (update_post_analytics_spec _ _ 11 12 rfl (by decide)).1 rfl

/-- The `weekly_generations` table row (src/models.py `WeeklyGeneration`). -/
structure WeeklyGeneration where
  id : Nat
  userId : Nat
  weekStartDate : Nat
  postsGenerated : Nat
  generationCompleted : Bool
  emailSent : Bool
deriving DecidableEq

/-- The `campaigns` table row (src/models.py lines 112-125), restricted to the
columns the generation tasks read. -/
structure Campaign where
  id : Nat
  userId : Nat
  name : String
  promptTemplate : String
  postsPerWeek : Nat
  isActive : Bool
deriving DecidableEq

/-- The `WeeklyGeneration.query.filter(user_id, week_start_date).first()`
lookup used by both weekly tasks. -/
def findWeeklyGen (recs : List WeeklyGeneration) (uid weekStart : Nat) :
    Option WeeklyGeneration :=
  recs.find? (fun r => r.userId == uid && r.weekStartDate == weekStart)

/-- The per-user body of the daily fan-out task `generate_weekly_posts`
(src/tasks/generation.py lines 24-45): skip when a Weekly Generation Record
for (user, week-start) exists with its completion flag set, skip when the
user is over quota (`canGen` models `user.can_generate_posts()`), otherwise
enqueue one `generate_user_weekly_posts` job (payload: user id, week start).
The fan-out itself never writes the records table. -/
def fanOutForUser (recs : List WeeklyGeneration) (uid weekStart : Nat)
    (canGen : Bool) : List (Nat × Nat) :=
  match findWeeklyGen recs uid weekStart with
  | some r =>
    if r.generationCompleted then []
    else if canGen then [(uid, weekStart)] else []
  | none => if canGen then [(uid, weekStart)] else []

/-- The worker task `generate_user_weekly_posts` (src/tasks/generation.py
lines 47-133).  `profileExists` models the business-profile lookup; fresh row
ids come from `nextRecId` / `nextCampaignId`.  Returns the updated records
table, the updated campaigns table, the `generate_single_post` jobs enqueued
(payload: user id, campaign id, weekly record id) and the notification email
jobs enqueued. -/
def generate_user_weekly_posts (recs : List WeeklyGeneration)
    (campaignTable : List Campaign) (uid weekStart : Nat) (profileExists : Bool)
    (nextRecId nextCampaignId : Nat) :
    List WeeklyGeneration × List Campaign × List (Nat × Nat × Nat) × List (Nat × Nat) :=
  let found := findWeeklyGen recs uid weekStart
  let wg := found.getD
    { id := nextRecId, userId := uid, weekStartDate := weekStart,
      postsGenerated := 0, generationCompleted := false, emailSent := false }
  let recs1 := if found.isSome then recs else recs ++ [wg]
  if !profileExists then (recs1, campaignTable, [], [])
  else
    let active := campaignTable.filter (fun c => c.userId == uid && c.isActive)
    let defaultCampaign : Campaign :=
      { id := nextCampaignId, userId := uid, name := "Default Weekly Posts",
        promptTemplate :=
          "Create engaging social media content for {brand_name} targeting {target_audience}",
        postsPerWeek := 7, isActive := true }
    let campaignTable2 :=
      if active.isEmpty then campaignTable ++ [defaultCampaign] else campaignTable
    let campaigns := if active.isEmpty then [defaultCampaign] else active
    let jobs :=
      (campaigns.map (fun c => (List.range c.postsPerWeek).map
        (fun _ => (uid, c.id, wg.id)))).flatten
    let recs2 := recs1.map (fun r =>
      if r.id == wg.id then
        { r with postsGenerated := jobs.length, generationCompleted := true }
      else r)
    (recs2, campaignTable2, jobs, [(uid, wg.id)])

/-- One complete weekly attempt for one user: the daily fan-out body followed
by the execution of every `generate_user_weekly_posts` job it enqueued. -/
def weeklyRunForUser (recs : List WeeklyGeneration) (campaignTable : List Campaign)
    (uid weekStart : Nat) (canGen profileExists : Bool)
    (nextRecId nextCampaignId : Nat) :
    List WeeklyGeneration × List Campaign × List (Nat × Nat × Nat) :=
  (fanOutForUser recs uid weekStart canGen).foldl
    (fun st _ =>
      let (recsAcc, campsAcc, jobsAcc) := st
      let (recsNew, campsNew, js, _) :=
        generate_user_weekly_posts recsAcc campsAcc uid weekStart profileExists
          nextRecId nextCampaignId
      (recsNew, campsNew, jobsAcc ++ js))
    (recs, campaignTable, [])

/-- C1: when the Weekly Generation Record for (user, week-start) exists and
its completion flag is set, a fan-out attempt enqueues no worker job, the
whole weekly run performs zero `generate_single_post` enqueues, every table
is left unchanged, and in particular the record's `posts_generated` count is
unchanged. -/
theorem completed_week_fanout_noop (recs : List WeeklyGeneration)
    (campaignTable : List Campaign) (uid weekStart : Nat)
    (canGen profileExists : Bool) (nextRecId nextCampaignId : Nat)
    (r : WeeklyGeneration) (hfind : findWeeklyGen recs uid weekStart = some r)
    (hdone : r.generationCompleted = true) :
    fanOutForUser recs uid weekStart canGen = [] ∧
    weeklyRunForUser recs campaignTable uid weekStart canGen profileExists
        nextRecId nextCampaignId = (recs, campaignTable, []) ∧
    (findWeeklyGen recs uid weekStart).map WeeklyGeneration.postsGenerated =
      some r.postsGenerated := by
  have hfan : fanOutForUser recs uid weekStart canGen = [] := by
    simp [fanOutForUser, hfind, hdone]
  refine ⟨hfan, ?_, ?_⟩
  · simp [weeklyRunForUser, hfan]
  · rw [hfind]
    rfl

theorem completed_week_fanout_noop_witness :
    weeklyRunForUser
        [{ id := 4, userId := 1, weekStartDate := 700, postsGenerated := 7,
           generationCompleted := true, emailSent := true }]
        [{ id := 2, userId := 1, name := "n", promptTemplate := "t",
           postsPerWeek := 7, isActive := true }]
        1 700 true true 5 6 =
      ([{ id := 4, userId := 1, weekStartDate := 700, postsGenerated := 7,
          generationCompleted := true, emailSent := true }],
        [{ id := 2, userId := 1, name := "n", promptTemplate := "t",
           postsPerWeek := 7, isActive := true }], []) :=
  (completed_week_fanout_noop
      [{ id := 4, userId := 1, weekStartDate := 700, postsGenerated := 7,
         generationCompleted := true, emailSent := true }]
      [{ id := 2, userId := 1, name := "n", promptTemplate := "t",
         postsPerWeek := 7, isActive := true }] 1 700 true true 5 6
      { id := 4, userId := 1, weekStartDate := 700, postsGenerated := 7,
        generationCompleted := true, emailSent := true } rfl rfl).2.1

/-- The `order_by(Post.created_at)` ordering used by the scheduler. -/
def byCreated (a b : Post) : Prop := a.createdAt ≤ b.createdAt

instance : DecidableRel byCreated := fun a b => Nat.decLe a.createdAt b.createdAt

instance : IsTotal Post byCreated := ⟨fun a b => Nat.le_total a.createdAt b.createdAt⟩

instance : IsTrans Post byCreated := ⟨fun _ _ _ hab hbc => Nat.le_trans hab hbc⟩

/-- The scheduler's row selection (src/tasks/publishing.py lines 164-168):
the user's APPROVED posts without a scheduled-publish timestamp, ordered by
creation time, oldest first. -/
def scheduleQuery (table : List Post) (uid : Nat) : List Post :=
  List.insertionSort byCreated
    (table.filter (fun p =>
      p.userId == uid && p.status == PostStatus.approved && p.scheduledFor.isNone))

/-- `utcnow().replace(hour=10, minute=0, ...) + timedelta(days=1)`
(src/tasks/publishing.py lines 176-177): 10:00 on the day after the
invocation day, in minutes since the epoch. -/
def nextDayTen (now : Nat) : Nat := (now / 1440) * 1440 + 600 + 1440

/-- The `for i, post in enumerate(...)` loop of src/tasks/publishing.py lines
179-184: the post at position `i` (counting from `i0`) gets
`scheduled_for = base + i days` and status SCHEDULED in the same row update. -/
def assignSlots (base : Nat) : Nat → List Post → List Post
  | _, [] => []
  | i, p :: rest =>
    { p with scheduledFor := some (base + 1440 * i), status := PostStatus.scheduled } ::
      assignSlots base (i + 1) rest

/-- `schedule_approved_posts` (src/tasks/publishing.py lines 158-191):
the list of rows mutated and committed by one scheduler run for `uid`. -/
def schedule_approved_posts (table : List Post) (uid now : Nat) : List Post :=
  assignSlots (nextDayTen now) 0 (scheduleQuery table uid)

theorem assignSlots_get? (base : Nat) :
    ∀ (l : List Post) (i j : Nat),
      (assignSlots base i l).get? j =
        (l.get? j).map (fun p =>
          { p with scheduledFor := some (base + 1440 * (i + j)),
                   status := PostStatus.scheduled }) := by
  intro l
  induction l with
  | nil => intro i j; simp [assignSlots]
  | cons p rest ih =>
    intro i j
    cases j with
    | zero => simp [assignSlots]
    | succ j =>
      simp only [assignSlots, List.get?_cons_succ, ih rest.length.succ.pred]
      rw [ih (i + 1) j]
      have : i + 1 + j = i + (j + 1) := by omega
      rw [this]

theorem assignSlots_length (base : Nat) :
    ∀ (l : List Post) (i : Nat), (assignSlots base i l).length = l.length := by
  intro l
  induction l with
  | nil => intro i; rfl
  | cons p rest ih => intro i; simp [assignSlots, ih]

/-- C2: one scheduler run for a user selects exactly the user's APPROVED
posts with no scheduled-publish timestamp, ordered by creation time oldest
first, and rewrites the i-th selected row (i from 0) to carry the publish
timestamp `nextDayTen now + i days` together with status SCHEDULED in the
same row update; the assigned timestamps are strictly increasing, exactly one
day apart, in creation order. -/
theorem schedule_approved_posts_spec (table : List Post) (uid now : Nat) :
    (∀ p, p ∈ scheduleQuery table uid ↔
      p ∈ table ∧ p.userId = uid ∧ p.status = PostStatus.approved ∧
        p.scheduledFor = none) ∧
    List.Sorted byCreated (scheduleQuery table uid) ∧
    (schedule_approved_posts table uid now).length =
      (scheduleQuery table uid).length ∧
    (∀ j p, (scheduleQuery table uid).get? j = some p →
      (schedule_approved_posts table uid now).get? j =
        some { p with scheduledFor := some (nextDayTen now + 1440 * j),
                      status := PostStatus.scheduled }) ∧
    (∀ j k pj pk, (schedule_approved_posts table uid now).get? j = some pj →
      (schedule_approved_posts table uid now).get? k = some pk → j < k →
      ∃ tj tk, pj.scheduledFor = some tj ∧ pk.scheduledFor = some tk ∧
        tj < tk ∧ tk - tj = 1440 * (k - j)) := by
  have hget : ∀ j, (schedule_approved_posts table uid now).get? j =
      ((scheduleQuery table uid).get? j).map (fun p =>
        { p with scheduledFor := some (nextDayTen now + 1440 * j),
                 status := PostStatus.scheduled }) := by
    intro j
    unfold schedule_approved_posts
    rw [assignSlots_get? (nextDayTen now) (scheduleQuery table uid) 0 j]
    simp
  refine ⟨?_, ?_, ?_, ?_, ?_⟩
  · intro p
    unfold scheduleQuery
    rw [List.Perm.mem_iff (List.perm_insertionSort byCreated _)]
    simp only [List.mem_filter, Bool.and_eq_true, beq_iff_eq, Option.isNone_iff_eq_none]
    tauto
  · exact List.sorted_insertionSort byCreated _
  · exact assignSlots_length (nextDayTen now) _ 0
  · intro j p hp
    rw [hget j, hp]
    rfl
  · intro j k pj pk hj hk hjk
    rw [hget j] at hj
    rw [hget k] at hk
    cases hqj : (scheduleQuery table uid).get? j with
    | none => rw [hqj] at hj; simp at hj
    | some qj =>
      cases hqk : (scheduleQuery table uid).get? k with
      | none => rw [hqk] at hk; simp at hk
      | some qk =>
        rw [hqj] at hj
        rw [hqk] at hk
        simp at hj hk
        refine ⟨nextDayTen now + 1440 * j, nextDayTen now + 1440 * k, ?_, ?_, ?_, ?_⟩
        · rw [← hj]
        · rw [← hk]
        · omega
        · omega

def witnessPostA : Post :=
  { samplePost with status := PostStatus.approved, createdAt := 50 }

def witnessPostB : Post :=
  { samplePost with id := 4, status := PostStatus.approved, createdAt := 20 }

def witnessTable : List Post := [witnessPostA, witnessPostB]

theorem schedule_approved_posts_spec_witness :
    (schedule_approved_posts witnessTable 1 20000).get? 0 =
      some { witnessPostB with scheduledFor := some (nextDayTen 20000 + 1440 * 0),
                               status := PostStatus.scheduled } ∧
    (schedule_approved_posts witnessTable 1 20000).get? 1 =
      some { witnessPostA with scheduledFor := some (nextDayTen 20000 + 1440 * 1),
                               status := PostStatus.scheduled } :=
  ⟨(schedule_approved_posts_spec witnessTable 1 20000).2.2.2.1 0 witnessPostB rfl,
    (schedule_approved_posts_spec witnessTable 1 20000).2.2.2.1 1 witnessPostA rfl⟩

/-- An operation performed against the Media Store (S3), in execution order:
`delete` models `storage_service.delete_media(url)`, `upload` models
`storage_service.upload_generated_media(file, kind, user_id, post.id)` and
`thumbnail` models `storage_service.generate_thumbnail(url, user_id, post.id)`. -/
inductive StorageOp where
  | delete (url : String)
  | upload (userId postId : Nat)
  | thumbnail (userId postId : Nat)
deriving DecidableEq

/-- The external-service outcomes consumed by one `regenerate_post` run:
the AI content call result, the AI media call result, whether the media
result carries a file, what the media upload returned (`none` models a falsy
upload result) and what thumbnail generation returned. -/
structure RegenInputs where
  contentSuccess : Bool
  caption : String
  hashtags : List String
  imagePrompt : String
  mediaSuccess : Bool
  hasFile : Bool
  uploadedUrl : Option String
  thumbUrl : Option String
deriving DecidableEq

/-- src/tasks/generation.py lines 311-315: the old media object and the old
thumbnail are deleted from the Media Store when present. -/
def deleteOldMediaOps (post : Post) : List StorageOp :=
  (match post.mediaUrl with
   | some u => [StorageOp.delete u]
   | none => []) ++
  (match post.thumbnailUrl with
   | some u => [StorageOp.delete u]
   | none => [])

/-- `regenerate_post` (src/tasks/generation.py lines 253-371) on the
looked-up post: returns the committed row (`none` when the task returned
False before committing) and the Media Store operations performed, in
order. -/
def regenerate_post (post : Post) (inp : RegenInputs) (note : String)
    (now : Nat) : Option Post × List StorageOp :=
  if !inp.contentSuccess then (none, [])
  else if !inp.mediaSuccess then (none, [])
  else
    let delOps := deleteOldMediaOps post
    if !inp.hasFile then (none, delOps)
    else
      let uploadOps := delOps ++ [StorageOp.upload post.userId post.id]
      let (p1, allOps) :=
        match inp.uploadedUrl with
        | some url =>
          let p := { post with mediaUrl := some url }
          match post.mediaType, inp.thumbUrl with
          | MediaType.video, some turl =>
            ({ p with thumbnailUrl := some turl },
              uploadOps ++ [StorageOp.thumbnail post.userId post.id])
          | MediaType.video, none =>
            (p, uploadOps ++ [StorageOp.thumbnail post.userId post.id])
          | _, _ => (p, uploadOps)
        | none => (post, uploadOps)
      let p2 := { p1 with caption := inp.caption, hashtags := inp.hashtags,
                          rejectionNote := some note,
                          regenerationCount := post.regenerationCount + 1,
                          status := PostStatus.pending, updatedAt := now }
      let md := dictSet p2.generationMetadata "regeneration"
        (MetaVal.regenInfo note (post.regenerationCount + 1) now)
      (some { p2 with generationMetadata := md }, allOps)

/-- A concrete REJECTED row and a successful set of regeneration outcomes,
used by the concrete regeneration evaluations below. -/
def rejectedPost : Post :=
  { samplePost with status := PostStatus.rejected, rejectionNote := some "bad" }

def okRegenInputs : RegenInputs :=
  { contentSuccess := true, caption := "c2", hashtags := ["h2"],
    imagePrompt := "ip", mediaSuccess := true, hasFile := true,
    uploadedUrl := some "m2", thumbUrl := none }

/-- C5 counterexample: a successful regeneration also rewrites
`generation_metadata` (and the updated-at timestamp), so it does not change
*only* caption, hashtags, media URL, status and the regeneration counter.
Evaluated on a concrete REJECTED row: the committed metadata differs from the
pre-regeneration metadata. -/
theorem regenerate_changes_metadata_counterexample :
    ((regenerate_post rejectedPost okRegenInputs "bad" 99).1.map
        Post.generationMetadata =
      some [("weekly_generation_id", MetaVal.num 9),
            ("regeneration", MetaVal.regenInfo "bad" 1 99)]) ∧
    ((regenerate_post rejectedPost okRegenInputs "bad" 99).1.map
        Post.generationMetadata ≠ some rejectedPost.generationMetadata) ∧
    ((regenerate_post rejectedPost okRegenInputs "bad" 99).1.map
        Post.updatedAt ≠ some rejectedPost.updatedAt) := by
  refine ⟨rfl, by decide, by decide⟩

/-- C5 (amended): a successful regeneration (content and media generation
succeed, a media file is produced and its upload returns a URL) reuses the
same row: the id is unchanged, the regeneration counter strictly increases by
exactly 1, status is reset to PENDING, caption/hashtags/media URL are
replaced, the rejection note, updated-at timestamp and generation metadata
are also rewritten, and every other column (user, campaign, media type,
prompt, creation time, scheduling and platform fields, metric counters,
engagement rate and last-metrics-update timestamp) is
unchanged; the previously stored media (and thumbnail, when present) is
deleted from the Media Store before the replacement upload. -/
theorem regenerate_post_effects (post : Post) (inp : RegenInputs) (note : String)
    (now : Nat) (url : String) (hst : post.status = PostStatus.rejected)
    (hc : inp.contentSuccess = true) (hm : inp.mediaSuccess = true)
    (hf : inp.hasFile = true) (hu : inp.uploadedUrl = some url) :
    ((regenerate_post post inp note now).1.isSome = true) ∧
    ((regenerate_post post inp note now).2 =
      deleteOldMediaOps post ++ [StorageOp.upload post.userId post.id] ++
        (if post.mediaType = MediaType.video then
          [StorageOp.thumbnail post.userId post.id]
        else [])) ∧
    (∀ p, (regenerate_post post inp note now).1 = some p →
      p.id = post.id ∧
      p.regenerationCount = post.regenerationCount + 1 ∧
      p.status = PostStatus.pending ∧
      p.caption = inp.caption ∧ p.hashtags = inp.hashtags ∧
      p.mediaUrl = some url ∧
      p.rejectionNote = some note ∧ p.updatedAt = now ∧
      p.generationMetadata =
        dictSet post.generationMetadata "regeneration"
          (MetaVal.regenInfo note (post.regenerationCount + 1) now) ∧
      p.userId = post.userId ∧ p.campaignId = post.campaignId ∧
      p.mediaType = post.mediaType ∧ p.promptUsed = post.promptUsed ∧
      p.scheduledFor = post.scheduledFor ∧ p.postedAt = post.postedAt ∧
      p.instagramPostId = post.instagramPostId ∧
      p.facebookPostId = post.facebookPostId ∧
      metricCounters p = metricCounters post ∧
      p.engagementRate = post.engagementRate ∧
      p.lastMetricsUpdate = post.lastMetricsUpdate ∧
      p.createdAt = post.createdAt ∧
      (post.mediaType = MediaType.image → p.thumbnailUrl = post.thumbnailUrl)) := by
  obtain ⟨pid, puid, pcamp, pmt, pmu, ptu, pcap, phash, ppr, pgm, pst, prn, prc,
    psf, ppa, pig, pfb, plk, pcm, psh, prch, pim, per, plmu, pca, pua⟩ := post
  obtain ⟨cs, cap2, hsh2, ipr2, ms, hfl, uu, tu⟩ := inp
  simp only at hc hm hf hu hst
  subst hc
  subst hm
  subst hf
  subst hu
  subst hst
  cases pmt <;> cases tu <;>
    refine ⟨rfl, by simp [regenerate_post, deleteOldMediaOps], ?_⟩ <;>
    (rintro p hp; injection hp with hp; subst hp; simp [metricCounters])

theorem regenerate_post_effects_witness :
    ((regenerate_post rejectedPost okRegenInputs "bad" 99).1.isSome = true) ∧
    ((regenerate_post rejectedPost okRegenInputs "bad" 99).2 =
      deleteOldMediaOps rejectedPost ++
        [StorageOp.upload rejectedPost.userId rejectedPost.id] ++
        (if rejectedPost.mediaType = MediaType.video then
          [StorageOp.thumbnail rejectedPost.userId rejectedPost.id]
        else [])) :=
  ⟨(regenerate_post_effects rejectedPost okRegenInputs "bad" 99 "m2"
      rfl rfl rfl rfl rfl).1,
    (regenerate_post_effects rejectedPost okRegenInputs "bad" 99 "m2"
      rfl rfl rfl rfl rfl).2.1⟩

/-- Placeholder lookup for `str.format(**brand_profile)`.  Every placeholder
appearing in a modelled template is present in the environment (a missing key
would raise `KeyError` in Python; that path is not exercised here and is
modelled as the empty string). -/
def lookupEnv (env : List (String × String)) (name : String) : String :=
  ((env.find? (fun kv => kv.1 == name)).map Prod.snd).getD ""

/-- Character-level engine of Python `str.format` restricted to plain named
placeholders: outside a placeholder (`mode = none`) a literal character is
copied and `{` opens a placeholder; inside a placeholder (`mode = some acc`)
characters accumulate until `}` closes it and the looked-up value is
emitted. -/
def subst (env : List (String × String)) :
    Option (List Char) → List Char → List Char
  | _, [] => []
  | none, c :: rest =>
    if c = '{' then subst env (some []) rest
    else c :: subst env none rest
  | some acc, c :: rest =>
    if c = '}' then (lookupEnv env (String.mk acc)).data ++ subst env none rest
    else subst env (some (acc ++ [c])) rest

/-- Python `template.format(**env)` for named string placeholders. -/
def pythonFormat (s : String) (env : List (String × String)) : String :=
  String.mk (subst env none s.data)

/-- The `business_profiles` row fields read by the generation tasks
(src/tasks/generation.py lines 150-161).  A NULL or empty text column is
modelled as `none` (Python replaces both by the fallback via `or`).  The
list-valued profile fields (content themes, hashtag preferences, brand
colors) also enter the Python dict but no modelled template references them,
so they are omitted from the substitution environment. -/
structure BusinessProfile where
  brandName : Option String
  brandDescription : Option String
  brandVoice : Option String
  brandStyle : Option String
  targetAudience : Option String
  industry : Option String
  aiInstructions : Option String
deriving DecidableEq

/-- The `brand_profile` dict built at src/tasks/generation.py lines 150-161,
restricted to its string-valued entries. -/
def buildBrandProfile (profile : BusinessProfile) : List (String × String) :=
  [("brand_name", profile.brandName.getD "Your Brand"),
   ("brand_description", profile.brandDescription.getD ""),
   ("brand_voice", profile.brandVoice.getD "Professional and engaging"),
   ("brand_style", profile.brandStyle.getD ""),
   ("target_audience", profile.targetAudience.getD "General audience"),
   ("industry", profile.industry.getD ""),
   ("ai_instructions", profile.aiInstructions.getD "")]

/-- The argument passed to `ai_service.generate_post_content` at
src/tasks/generation.py line 166: the campaign template with its placeholders
resolved against the brand profile. -/
def promptSentToAI (campaign : Campaign) (profile : BusinessProfile) : String :=
  pythonFormat campaign.promptTemplate (buildBrandProfile profile)

/-- Result of `ai_service.generate_post_content`, as read by the generation
task: success flag, caption, hashtags, image prompt and free-form metadata. -/
structure AiContent where
  success : Bool
  caption : String
  hashtags : List String
  imagePrompt : String
  metadata : List (String × String)
deriving DecidableEq

/-- Result of `ai_service.generate_image`: success flag, whether the result
dict carries an `image_file`, and free-form metadata. -/
structure MediaGen where
  success : Bool
  hasFile : Bool
  metadata : List (String × String)
deriving DecidableEq

/-- `generate_single_post` (src/tasks/generation.py lines 135-251).  The AI
services are passed as functions of the prompt they receive; `uploadUrl` is
what `storage_service.upload_generated_media` returns (`none` = falsy);
`postId` is the id the flush assigns to the new row.  The task hard-codes
`media_type = MediaType.IMAGE` (line 175), so only the image path is live.
Returns the committed row, or `none` when the task returned False. -/
def generate_single_post (userId : Nat) (campaign : Campaign)
    (profile : BusinessProfile) (weeklyGenId : Nat) (ai : String → AiContent)
    (media : String → MediaGen) (uploadUrl : Option String)
    (postId now : Nat) : Option Post :=
  let contentResult := ai (promptSentToAI campaign profile)
  if !contentResult.success then none
  else
    let mediaResult := media contentResult.imagePrompt
    if !mediaResult.success then none
    else if !mediaResult.hasFile then none
    else
      let post : Post :=
        { id := postId, userId := userId, campaignId := some campaign.id,
          mediaType := MediaType.image, mediaUrl := none, thumbnailUrl := none,
          caption := contentResult.caption, hashtags := contentResult.hashtags,
          promptUsed := campaign.promptTemplate,
          generationMetadata :=
            [("content_generation", MetaVal.dict contentResult.metadata),
             ("media_generation", MetaVal.dict mediaResult.metadata),
             ("weekly_generation_id", MetaVal.num weeklyGenId)],
          status := PostStatus.pending, rejectionNote := none,
          regenerationCount := 0, scheduledFor := none, postedAt := none,
          instagramPostId := none, facebookPostId := none, likes := 0,
          comments := 0, shares := 0, reach := 0, impressions := 0,
          engagementRate := 0, lastMetricsUpdate := none, createdAt := now,
          updatedAt := now }
      some (match uploadUrl with
        | some u => { post with mediaUrl := some u }
        | none => post)

/-- The default campaign created at src/tasks/generation.py lines 87-94,
whose prompt template carries two placeholders. -/
def defaultTemplateCampaign : Campaign :=
  { id := 2, userId := 1, name := "Default Weekly Posts",
    promptTemplate :=
      "Create engaging social media content for {brand_name} targeting {target_audience}",
    postsPerWeek := 7, isActive := true }

/-- A concrete profile with a brand name and a target audience set. -/
def sampleProfile : BusinessProfile :=
  { brandName := some "Acme Studio", brandDescription := none,
    brandVoice := none, brandStyle := none,
    targetAudience := some "young founders", industry := none,
    aiInstructions := none }

/-- An AI content service that records the prompt it received as the caption
of the generated content. -/
def echoAi (prompt : String) : AiContent :=
  { success := true, caption := prompt, hashtags := ["x"],
    imagePrompt := "ip", metadata := [] }

/-- A media service that always succeeds with a file. -/
def okMedia (_ : String) : MediaGen :=
  { success := true, hasFile := true, metadata := [] }

/-- C8: the prompt stored on the created row is the raw campaign template,
not the resolved prompt actually sent to the AI service.  On the default
campaign template and a profile with brand name "Acme Studio" and target
audience "young founders", generation is driven by the resolved prompt
(observable in the caption, since `echoAi` echoes its prompt), while the
stored `prompt_used` is the unresolved template with the placeholders still
in it — contradicting the comment at src/tasks/generation.py line 201
("Store the actual prompt used (formatted campaign template)"). -/
theorem prompt_stored_is_raw_template :
    promptSentToAI defaultTemplateCampaign sampleProfile =
      "Create engaging social media content for Acme Studio targeting young founders" ∧
    (generate_single_post 1 defaultTemplateCampaign sampleProfile 9 echoAi okMedia
        (some "u") 5 100).map Post.promptUsed =
      some defaultTemplateCampaign.promptTemplate ∧
    (generate_single_post 1 defaultTemplateCampaign sampleProfile 9 echoAi okMedia
        (some "u") 5 100).map Post.caption =
      some (promptSentToAI defaultTemplateCampaign sampleProfile) ∧
    defaultTemplateCampaign.promptTemplate ≠
      promptSentToAI defaultTemplateCampaign sampleProfile := by
  refine ⟨by decide, rfl, rfl, by decide⟩

/-- The per-row effect of the scheduler loop (src/tasks/publishing.py lines
164-184) on one post: a row is rewritten (timestamp and status SCHEDULED in
the same update) exactly when it satisfies the selection filter
(APPROVED and no scheduled-publish timestamp). -/
def scheduleOne (p : Post) (slot : Nat) : Post :=
  if p.status = PostStatus.approved ∧ p.scheduledFor = none then
    { p with scheduledFor := some slot, status := PostStatus.scheduled }
  else p

/-- The engine operations that can touch a content item after creation, each
carrying the external inputs of the corresponding source function:
the approval endpoint, the rejection endpoint, the regeneration task, the
publication scheduler (with the slot it assigns), the publish job and the
metrics refresher. -/
inductive EngineOp where
  | approve (subActive : Bool)
  | reject (subActive : Bool) (note : Option String)
  | regen (inp : RegenInputs) (note : String) (now : Nat)
  | schedule (slot : Nat)
  | publish (instagram facebook : Option SocialAccount) (igRes fbRes : PubResult)
      (now : Nat)
  | metrics (igConnected : Bool) (insights : Option (List Insight)) (now : Nat)

/-- One engine operation applied to one row (a failed regeneration task
leaves the row as it was: nothing is committed). -/
def engineStep (p : Post) : EngineOp → Post
  | EngineOp.approve s => (approve_post s p).post
  | EngineOp.reject s note => (reject_post s p note).post
  | EngineOp.regen inp note now => ((regenerate_post p inp note now).1).getD p
  | EngineOp.schedule slot => scheduleOne p slot
  | EngineOp.publish ig fb igRes fbRes now =>
    (publish_single_post p ig fb igRes fbRes now).1
  | EngineOp.metrics igc ins now => update_post_analytics p igc ins now

/-- A row after a sequence of engine operations. -/
def engineRun (p : Post) (ops : List EngineOp) : Post :=
  ops.foldl engineStep p

/-- The claimed state invariant: SCHEDULED rows carry a publish timestamp,
and a PENDING row that was never regenerated carries no rejection note. -/
def lifecycleInv (p : Post) : Prop :=
  (p.status = PostStatus.scheduled → p.scheduledFor ≠ none) ∧
  (p.status = PostStatus.pending ∧ p.regenerationCount = 0 →
    p.rejectionNote = none)

/-- A committed regeneration resets the status to PENDING, increments the
counter, stores the note, and never touches the scheduling timestamp. -/
theorem regenerate_post_success_fields (p : Post) (inp : RegenInputs)
    (note : String) (now : Nat) :
    ∀ q, (regenerate_post p inp note now).1 = some q →
      q.status = PostStatus.pending ∧
      q.regenerationCount = p.regenerationCount + 1 ∧
      q.scheduledFor = p.scheduledFor ∧
      q.rejectionNote = some note := by
  obtain ⟨pid, puid, pcamp, pmt, pmu, ptu, pcap, phash, ppr, pgm, pst, prn, prc,
    psf, ppa, pig, pfb, plk, pcm, psh, prch, pim, per, plmu, pca, pua⟩ := p
  obtain ⟨cs, cap2, hsh2, ipr2, ms, hfl, uu, tu⟩ := inp
  intro q hq
  cases cs <;> cases ms <;> cases hfl <;> rcases uu with _ | u <;>
    cases pmt <;> rcases tu with _ | t <;>
    first
      | (exact Option.noConfusion hq)
      | (injection hq with hq; subst hq; exact ⟨rfl, rfl, rfl, rfl⟩)

/-- The publish job never touches the scheduling timestamp, the rejection
note or the regeneration counter, and either leaves the status alone or moves
it to POSTED or FAILED. -/
theorem publish_single_post_fields (p : Post) (ig fb : Option SocialAccount)
    (ir fr : PubResult) (now : Nat) :
    (publish_single_post p ig fb ir fr now).1.scheduledFor = p.scheduledFor ∧
    (publish_single_post p ig fb ir fr now).1.rejectionNote = p.rejectionNote ∧
    (publish_single_post p ig fb ir fr now).1.regenerationCount =
      p.regenerationCount ∧
    ((publish_single_post p ig fb ir fr now).1.status = p.status ∨
      (publish_single_post p ig fb ir fr now).1.status = PostStatus.posted ∨
      (publish_single_post p ig fb ir fr now).1.status = PostStatus.failed) := by
  unfold publish_single_post
  split_ifs with h
  · exact ⟨rfl, rfl, rfl, Or.inl rfl⟩
  · cases ig
    · exact ⟨rfl, rfl, rfl, Or.inr (Or.inl rfl)⟩
    · cases ir
      · cases fb <;> cases fr <;> exact ⟨rfl, rfl, rfl, Or.inr (Or.inl rfl)⟩
      · exact ⟨rfl, rfl, rfl, Or.inr (Or.inr rfl)⟩

/-- The metrics refresher never touches status, scheduling timestamp,
rejection note or regeneration counter. -/
theorem update_post_analytics_lifecycle_frame (p : Post) (igc : Bool)
    (ins : Option (List Insight)) (now : Nat) :
    (update_post_analytics p igc ins now).status = p.status ∧
    (update_post_analytics p igc ins now).scheduledFor = p.scheduledFor ∧
    (update_post_analytics p igc ins now).rejectionNote = p.rejectionNote ∧
    (update_post_analytics p igc ins now).regenerationCount =
      p.regenerationCount := by
  unfold update_post_analytics
  split_ifs with h1 h2
  · exact ⟨rfl, rfl, rfl, rfl⟩
  · exact ⟨rfl, rfl, rfl, rfl⟩
  · cases ins with
    | none => exact ⟨rfl, rfl, rfl, rfl⟩
    | some data =>
      have hf := foldl_applyInsight_frame data p
      refine ⟨?_, ?_, ?_, ?_⟩
      · show (if _ then _ else _ : Post).status = _
        split <;> exact hf.1
      · show (if _ then _ else _ : Post).scheduledFor = _
        split <;> exact hf.2.1
      · show (if _ then _ else _ : Post).rejectionNote = _
        split <;> exact hf.2.2.1
      · show (if _ then _ else _ : Post).regenerationCount = _
        split <;> exact hf.2.2.2.1

/-- Every engine operation preserves the state invariant. -/
theorem engineStep_preserves_inv (p : Post) (op : EngineOp)
    (h : lifecycleInv p) : lifecycleInv (engineStep p op) := by
  cases op with
  | approve s =>
    show lifecycleInv (approve_post s p).post
    unfold approve_post
    split_ifs
    · exact h
    · exact h
    · simp [lifecycleInv]
  | reject s note =>
    show lifecycleInv (reject_post s p note).post
    unfold reject_post
    dsimp only
    split_ifs
    · exact h
    · exact h
    · exact h
    · simp [lifecycleInv]
  | regen inp note now =>
    show lifecycleInv (((regenerate_post p inp note now).1).getD p)
    cases hq : (regenerate_post p inp note now).1 with
    | none => exact h
    | some q =>
      have hf := regenerate_post_success_fields p inp note now q hq
      simp only [Option.getD_some]
      refine ⟨fun hs => ?_, fun hs => ?_⟩
      · rw [hf.1] at hs
        exact PostStatus.noConfusion hs
      · rw [hf.2.1] at hs
        exact absurd hs.2 (Nat.succ_ne_zero _)
  | schedule slot =>
    show lifecycleInv (scheduleOne p slot)
    unfold scheduleOne
    split_ifs with hg
    · simp [lifecycleInv]
    · exact h
  | publish ig fb ir fr now =>
    show lifecycleInv (publish_single_post p ig fb ir fr now).1
    unfold publish_single_post
    split_ifs with hs
    · exact h
    · cases ig
      · simp [lifecycleInv]
      · cases ir
        · cases fb <;> cases fr <;> simp [lifecycleInv]
        · simp [lifecycleInv]
  | metrics igc ins now =>
    show lifecycleInv (update_post_analytics p igc ins now)
    have hf := update_post_analytics_lifecycle_frame p igc ins now
    refine ⟨fun hs => ?_, fun hs => ?_⟩
    · rw [hf.1] at hs
      rw [hf.2.1]
      exact h.1 hs
    · rw [hf.1] at hs
      rw [hf.2.2.2] at hs
      rw [hf.2.2.1]
      exact h.2 hs

/-- A non-null scheduling timestamp survives every engine operation: no
operation ever clears `scheduled_for`. -/
theorem engineStep_keeps_scheduledFor (p : Post) (op : EngineOp)
    (h : p.scheduledFor ≠ none) : (engineStep p op).scheduledFor ≠ none := by
  cases op with
  | approve s =>
    show (approve_post s p).post.scheduledFor ≠ none
    unfold approve_post
    split_ifs <;> exact h
  | reject s note =>
    show (reject_post s p note).post.scheduledFor ≠ none
    unfold reject_post
    dsimp only
    split_ifs <;> exact h
  | regen inp note now =>
    show (((regenerate_post p inp note now).1).getD p).scheduledFor ≠ none
    cases hq : (regenerate_post p inp note now).1 with
    | none => exact h
    | some q =>
      have hf := regenerate_post_success_fields p inp note now q hq
      simp only [Option.getD_some]
      rw [hf.2.2.1]
      exact h
  | schedule slot =>
    show (scheduleOne p slot).scheduledFor ≠ none
    unfold scheduleOne
    split_ifs with hg
    · simp
    · exact h
  | publish ig fb ir fr now =>
    show (publish_single_post p ig fb ir fr now).1.scheduledFor ≠ none
    rw [(publish_single_post_fields p ig fb ir fr now).1]
    exact h
  | metrics igc ins now =>
    show (update_post_analytics p igc ins now).scheduledFor ≠ none
    rw [(update_post_analytics_lifecycle_frame p igc ins now).2.1]
    exact h

/-- The scheduling timestamp of a row that has none is set only by the
scheduler operation, and in the same update the status becomes SCHEDULED. -/
theorem engineStep_sets_scheduledFor_only_scheduling (p : Post) (op : EngineOp)
    (h0 : p.scheduledFor = none)
    (h1 : (engineStep p op).scheduledFor ≠ none) :
    (engineStep p op).status = PostStatus.scheduled := by
  cases op with
  | approve s =>
    exfalso
    revert h1
    show (approve_post s p).post.scheduledFor ≠ none → False
    unfold approve_post
    split_ifs <;> exact fun h1 => absurd h0 h1
  | reject s note =>
    exfalso
    revert h1
    show (reject_post s p note).post.scheduledFor ≠ none → False
    unfold reject_post
    dsimp only
    split_ifs <;> exact fun h1 => absurd h0 h1
  | regen inp note now =>
    exfalso
    revert h1
    show (((regenerate_post p inp note now).1).getD p).scheduledFor ≠ none → False
    cases hq : (regenerate_post p inp note now).1 with
    | none => exact fun h1 => absurd h0 h1
    | some q =>
      have hf := regenerate_post_success_fields p inp note now q hq
      simp only [Option.getD_some]
      rw [hf.2.2.1]
      exact fun h1 => absurd h0 h1
  | schedule slot =>
    revert h1
    show (scheduleOne p slot).scheduledFor ≠ none →
      (scheduleOne p slot).status = PostStatus.scheduled
    unfold scheduleOne
    split_ifs with hg
    · intro _
      rfl
    · exact fun h1 => absurd h0 h1
  | publish ig fb ir fr now =>
    exfalso
    simp only [engineStep] at h1
    rw [(publish_single_post_fields p ig fb ir fr now).1] at h1
    exact absurd h0 h1
  | metrics igc ins now =>
    exfalso
    simp only [engineStep] at h1
    rw [(update_post_analytics_lifecycle_frame p igc ins now).2.1] at h1
    exact absurd h0 h1

/-- A row committed by `generate_single_post` starts PENDING with
regeneration counter 0, no rejection note and no scheduling timestamp. -/
theorem generate_single_post_fresh (uid : Nat) (campaign : Campaign)
    (profile : BusinessProfile) (wgid : Nat) (ai : String → AiContent)
    (media : String → MediaGen) (uploadUrl : Option String) (postId now : Nat) :
    ∀ p, generate_single_post uid campaign profile wgid ai media uploadUrl
        postId now = some p →
      p.status = PostStatus.pending ∧ p.regenerationCount = 0 ∧
      p.rejectionNote = none ∧ p.scheduledFor = none := by
  intro p hp
  unfold generate_single_post at hp
  dsimp only at hp
  split_ifs at hp <;>
    first
      | exact Option.noConfusion hp
      | (injection hp with hp; subst hp;
         cases uploadUrl <;> exact ⟨rfl, rfl, rfl, rfl⟩)

/-- C6: starting from any row committed by a generation job, after any
sequence of engine operations the reached state satisfies
`status = SCHEDULED → scheduled_for ≠ null` and
`status = PENDING ∧ regeneration_count = 0 → rejection_note = null`;
moreover the scheduling timestamp is never cleared once set, and the only
operation that sets it is the scheduler, which makes the row SCHEDULED in the
same update — so the timestamp is null in every state before the row first
becomes SCHEDULED and non-null in every state thereafter. -/
theorem post_lifecycle_invariants (uid : Nat) (campaign : Campaign)
    (profile : BusinessProfile) (wgid : Nat) (ai : String → AiContent)
    (media : String → MediaGen) (uploadUrl : Option String) (postId now : Nat)
    {p0 : Post} (ops : List EngineOp)
    (h0 : generate_single_post uid campaign profile wgid ai media uploadUrl
        postId now = some p0) :
    lifecycleInv (engineRun p0 ops) ∧
    (∀ p op, p.scheduledFor ≠ none → (engineStep p op).scheduledFor ≠ none) ∧
    (∀ p op, p.scheduledFor = none → (engineStep p op).scheduledFor ≠ none →
      (engineStep p op).status = PostStatus.scheduled) := by
  have hfresh := generate_single_post_fresh uid campaign profile wgid ai media
    uploadUrl postId now p0 h0
  have hinv0 : lifecycleInv p0 := by
    refine ⟨fun hs => ?_, fun _ => hfresh.2.2.1⟩
    rw [hfresh.1] at hs
    exact PostStatus.noConfusion hs
  have hrun : ∀ (l : List EngineOp) (p : Post), lifecycleInv p →
      lifecycleInv (engineRun p l) := by
    intro l
    induction l with
    | nil => exact fun p h => h
    | cons op l ih =>
      intro p h
      exact ih (engineStep p op) (engineStep_preserves_inv p op h)
  exact ⟨hrun ops p0 hinv0, engineStep_keeps_scheduledFor,
    engineStep_sets_scheduledFor_only_scheduling⟩

/-- An AI content service returning fixed content. -/
def constAi (_ : String) : AiContent :=
  { success := true, caption := "c", hashtags := ["h"], imagePrompt := "ip",
    metadata := [] }

/-- The row `generate_single_post 1 defaultTemplateCampaign sampleProfile 9
constAi okMedia (some "u") 5 100` commits. -/
def freshSamplePost : Post :=
  { id := 5, userId := 1, campaignId := some 2, mediaType := MediaType.image,
    mediaUrl := some "u", thumbnailUrl := none, caption := "c",
    hashtags := ["h"], promptUsed := defaultTemplateCampaign.promptTemplate,
    generationMetadata :=
      [("content_generation", MetaVal.dict []),
       ("media_generation", MetaVal.dict []),
       ("weekly_generation_id", MetaVal.num 9)],
    status := PostStatus.pending, rejectionNote := none, regenerationCount := 0,
    scheduledFor := none, postedAt := none, instagramPostId := none,
    facebookPostId := none, likes := 0, comments := 0, shares := 0, reach := 0,
    impressions := 0, engagementRate := 0, lastMetricsUpdate := none,
    createdAt := 100, updatedAt := 100 }

/-- A concrete full lifecycle: approve, schedule, simulated publish, metrics
refresh. -/
def lifecycleOps : List EngineOp :=
  [EngineOp.approve true, EngineOp.schedule 30000,
   EngineOp.publish none none (PubResult.err "e") (PubResult.err "e") 30100,
   EngineOp.metrics true (some [⟨"reach", 4⟩]) 30200]

theorem post_lifecycle_invariants_witness :
    lifecycleInv (engineRun freshSamplePost lifecycleOps) :=
  (post_lifecycle_invariants 1 defaultTemplateCampaign sampleProfile 9 constAi
      okMedia (some "u") 5 100 lifecycleOps rfl).1
